import Mathlib

/-!
Verification of the tile-based panorama assembly engine of
`streetlevel/streetview/streetview.py` against its specification.

The Python source is shallowly embedded below: pure helpers become Lean
functions on `Nat`/`Int`/`String`/`List`, the HTTP layer is abstracted as an
oracle `String → Nat` mapping a URL to the response status code, and code
that can raise becomes `Except PyError`.  A caller-supplied `requests`
session is an `Option (String → Nat)`; `none` models `session = None`.
-/

/-- Python exceptions that the embedded code can raise.  The module imports
only `Session` from `requests`, so evaluating the bare name `requests`
raises `NameError`; a call with the wrong number of positional arguments
raises `TypeError`; `_validate_get_panorama_params` raises `ValueError`. -/
inductive PyError where
  | nameError
  | typeError
  | valueError
deriving DecidableEq

/-- The `image_sizes` entries of a `StreetViewPanorama`: objects with `.x`
and `.y` pixel fields (the source reads `img_size.x` and `img_size.y`). -/
structure ImgSize where
  x : Nat
  y : Nat
deriving DecidableEq

/-- The fields of `StreetViewPanorama` that the assembly engine reads:
`pano.id`, `pano.image_sizes` (a falsy value — `None` or the empty list —
is modelled as `[]`) and `pano.tile_size`. -/
structure StreetViewPanorama where
  id : String
  image_sizes : List ImgSize
  tile_size : Nat × Nat
deriving DecidableEq

/-- The `Tile` dataclass from `streetlevel.dataclasses` (its definition is
outside this file's source; its constructor is called as `Tile(x, y, url)`
in `_generate_tile_list`). -/
structure Tile where
  x : Nat
  y : Nat
  url : String
deriving DecidableEq

/-- Python's `s.startswith(pre)`: `pre` is a prefix of the character
sequence of `s`. -/
def py_startswith (s pre : String) : Bool :=
  pre.data.isPrefixOf s.data

/-- `_is_third_party_panoid`: `not panoid.startswith("F:") and not
panoid.startswith("C:")`. -/
def is_third_party_panoid (panoid : String) : Bool :=
  !(py_startswith panoid "F:") && !(py_startswith panoid "C:")

/-- `_generate_tile_url`: the third-party template
`https://lh3.ggpht.com/p/{panoid}=x{x}-y{y}-z{zoom}` when
`_is_third_party_panoid(panoid)`, else the official template
`https://cbk0.google.com/cbk?output=tile&panoid={panoid}&zoom={zoom}&x={x}&y={y}`. -/
def generate_tile_url (panoid : String) (zoom x y : Nat) : String :=
  if is_third_party_panoid panoid then
    "https://lh3.ggpht.com/p/" ++ panoid ++ "=x" ++ toString x ++ "-y" ++
      toString y ++ "-z" ++ toString zoom
  else
    "https://cbk0.google.com/cbk?output=tile&panoid=" ++ panoid ++ "&zoom=" ++
      toString zoom ++ "&x=" ++ toString x ++ "&y=" ++ toString y

/-- Python's ceiling division idiom `-(-a // b)` (where `//` is floor
division, `Int.fdiv`), as used in `_generate_tile_list`. -/
def ceilDiv (a b : Int) : Int := -((-a).fdiv b)

/-- The coordinate enumeration of `_generate_tile_list` with the tile size
as a parameter (the source instantiates it at 512 by 512):
`for x in range(cols): for y in range(rows): ...` with
`cols = -(-img_size[0] // tile_width)` and
`rows = -(-img_size[1] // tile_height)`. -/
def tileGridPlan (w h tw th : Nat) : List (Nat × Nat) :=
  let cols := (ceilDiv w tw).toNat
  let rows := (ceilDiv h th).toNat
  (List.range cols).flatMap (fun x => (List.range rows).map (fun y => (x, y)))

/-- `_generate_tile_list`: tile size fixed at 512 by 512, one
`Tile(x, y, _generate_tile_url(panoid, zoom, x, y))` per planned
coordinate, in loop order. -/
def generate_tile_list (panoid : String) (zoom : Nat) (img_size : Nat × Nat) :
    List Tile :=
  (tileGridPlan img_size.1 img_size.2 512 512).map
    (fun c => ⟨c.1, c.2, generate_tile_url panoid zoom c.1 c.2⟩)

/-- `_calculate_image_size`: `(416 * 2 ** zoom, 208 * 2 ** zoom)`. -/
def calculate_image_size (zoom : Nat) : Nat × Nat :=
  let multiplier := 2 ^ zoom
  (416 * multiplier, 208 * multiplier)

/-- The tier, target size, tile size and tile list that a `get_panorama`
variant passes to the (external) stitching routine. -/
structure Resolution where
  zoom : Nat
  img_size : Nat × Nat
  tile_size : Nat × Nat
  tiles : List Tile
deriving DecidableEq

/-- `_get_panorama_with_sizes`: clamp
`zoom = max(0, min(zoom, len(pano.image_sizes) - 1))`, take
`img_size = pano.image_sizes[zoom]` and plan the tile list. -/
def get_panorama_with_sizes (pano : StreetViewPanorama) (zoom : Int) :
    Resolution :=
  let z := (max 0 (min zoom ((pano.image_sizes.length : Int) - 1))).toNat
  let img := pano.image_sizes.getD z ⟨0, 0⟩
  { zoom := z
    img_size := (img.x, img.y)
    tile_size := pano.tile_size
    tiles := generate_tile_list pano.id z (img.x, img.y) }

/-- The probe fetch `session.get(url) if session else requests.get(url)`:
with a session it yields the status code; without one, the bare name
`requests` is unbound (only `Session` is imported from it), so evaluating
the expression raises `NameError` before any request is made. -/
def fetchStatus (session : Option (String → Nat)) (url : String) :
    Except PyError Nat :=
  match session with
  | some s => Except.ok (s url)
  | none => Except.error PyError.nameError

/-- The probing loop of `_get_panorama_without_sizes` over the remaining
zoom candidates (the source iterates `range(5, -1, -1)` and skips
candidates with `test_zoom > zoom`); a 200 response at a tier's (0, 0)
tile selects that tier. -/
def probeLoop (panoid : String) (zoom : Int)
    (session : Option (String → Nat)) : List Nat → Except PyError (Option Resolution)
  | [] => Except.ok none
  | t :: ts =>
    if (t : Int) ≤ zoom then
      match fetchStatus session (generate_tile_url panoid t 0 0) with
      | Except.error e => Except.error e
      | Except.ok status =>
        if status = 200 then
          Except.ok (some
            { zoom := t
              img_size := calculate_image_size t
              tile_size := (512, 512)
              tiles := generate_tile_list panoid t (calculate_image_size t) })
        else probeLoop panoid zoom session ts
    else probeLoop panoid zoom session ts

/-- `_get_panorama_without_sizes`: probe `ZOOM_LEVELS = range(5, -1, -1)`
with fixed `TILE_SIZE = (512, 512)`; `Except.ok none` models the `return
None` reached when no tier is confirmed. -/
def get_panorama_without_sizes (pano : StreetViewPanorama) (zoom : Int)
    (session : Option (String → Nat)) : Except PyError (Option Resolution) :=
  probeLoop pano.id zoom session [5, 4, 3, 2, 1, 0]

/-- `get_panorama`: dispatch on the truthiness of `pano.image_sizes`. -/
def get_panorama (pano : StreetViewPanorama) (zoom : Int)
    (session : Option (String → Nat)) : Except PyError (Option Resolution) :=
  if pano.image_sizes.isEmpty then
    get_panorama_without_sizes pano zoom session
  else
    Except.ok (some (get_panorama_with_sizes pano zoom))

/-- `_validate_get_panorama_params`: raise `ValueError` when
`pano.image_sizes` is falsy, else return the clamped zoom. -/
def validate_get_panorama_params (pano : StreetViewPanorama) (zoom : Int) :
    Except PyError Int :=
  if pano.image_sizes.isEmpty then
    Except.error PyError.valueError
  else
    Except.ok (max 0 (min zoom ((pano.image_sizes.length : Int) - 1)))

/-- `get_panorama_async`: after validation succeeds, the source evaluates
`_generate_tile_list(pano, zoom)` — two positional arguments for a
three-parameter function (and the panorama object where the identifier
string is expected) — so the call raises `TypeError` before any fetch. -/
def get_panorama_async (pano : StreetViewPanorama) (zoom : Int) :
    Except PyError Resolution :=
  match validate_get_panorama_params pano zoom with
  | Except.error e => Except.error e
  | Except.ok _ => Except.error PyError.typeError

/-- Claim C7: for every tier t, the candidate image size computed when no
size list exists is exactly (416 * 2 ^ t, 208 * 2 ^ t); in particular tier
3 yields (3328, 1664). -/
theorem C7_image_size :
    (∀ t : Nat, calculate_image_size t = (416 * 2 ^ t, 208 * 2 ^ t)) ∧
      calculate_image_size 3 = (3328, 1664) := by
  refine ⟨fun t => rfl, by decide⟩

/-- Claim C2: identifiers beginning with "F:" or "C:" are addressed through
the official cbk template, all others through the third-party lh3 template,
and the routing test is exactly the prefix check of
`_is_third_party_panoid`. -/
theorem C2_tile_url_routing :
    ∀ (panoid : String) (zoom x y : Nat),
      is_third_party_panoid panoid =
        (!(py_startswith panoid "F:") && !(py_startswith panoid "C:")) ∧
      generate_tile_url panoid zoom x y =
        (if py_startswith panoid "F:" ∨ py_startswith panoid "C:" then
          "https://cbk0.google.com/cbk?output=tile&panoid=" ++ panoid ++
            "&zoom=" ++ toString zoom ++ "&x=" ++ toString x ++ "&y=" ++
            toString y
        else
          "https://lh3.ggpht.com/p/" ++ panoid ++ "=x" ++ toString x ++
            "-y" ++ toString y ++ "-z" ++ toString zoom) := by
  intro panoid zoom x y
  refine ⟨rfl, ?_⟩
  unfold generate_tile_url is_third_party_panoid
  cases hF : py_startswith panoid "F:" <;> cases hC : py_startswith panoid "C:" <;>
    simp [hF, hC]

/-- Python's `-(-a // b)` on a natural numerator and positive natural
denominator equals natural ceiling division `(a + b - 1) / b`. -/
theorem ceilDiv_natCast (a b : Nat) (hb : 0 < b) :
    ceilDiv (a : Int) (b : Int) = (((a + b - 1) / b : Nat) : Int) := by
  have hb0 : (b : Int) ≠ 0 := by exact_mod_cast hb.ne.symm
  obtain ⟨q, r, hr, ha⟩ : ∃ q r, r < b ∧ a = b * q + r :=
    ⟨a / b, a % b, Nat.mod_lt _ hb, (Nat.div_add_mod a b).symm⟩
  subst ha
  unfold ceilDiv
  rw [Int.fdiv_eq_ediv _ (by exact_mod_cast Nat.zero_le b)]
  rcases Nat.eq_zero_or_pos r with h0 | hpos
  · subst h0
    have hnat : (b * q + 0 + b - 1) / b = q := by
      have h1 : b * q + 0 + b - 1 = b * q + (b - 1) := by omega
      rw [h1, Nat.mul_add_div hb, Nat.div_eq_of_lt (by omega), Nat.add_zero]
    rw [hnat]
    push_cast
    rw [show -((b : Int) * (q : Int) + 0) = (b : Int) * (-(q : Int)) from by ring,
      Int.mul_ediv_cancel_left _ hb0, neg_neg]
  · have hnat : (b * q + r + b - 1) / b = q + 1 := by
      have hm : b * (q + 1) = b * q + b := by ring
      have h1 : b * q + r + b - 1 = b * (q + 1) + (r - 1) := by omega
      rw [h1, Nat.mul_add_div hb, Nat.div_eq_of_lt (by omega), Nat.add_zero]
    rw [hnat]
    have hrb : (r : Int) < (b : Int) := by exact_mod_cast hr
    have hr1 : (1 : Int) ≤ (r : Int) := by exact_mod_cast hpos
    push_cast
    rw [show -((b : Int) * (q : Int) + (r : Int)) =
        ((b : Int) - (r : Int)) + (b : Int) * (-((q : Int) + 1)) from by ring,
      Int.add_mul_ediv_left _ _ hb0,
      Int.ediv_eq_zero_of_lt (by omega) (by omega)]
    ring

/-- Natural-number form of `ceilDiv_natCast`. -/
theorem ceilDiv_toNat (a b : Nat) (hb : 0 < b) :
    (ceilDiv (a : Int) (b : Int)).toNat = (a + b - 1) / b := by
  rw [ceilDiv_natCast a b hb, Int.toNat_natCast]

/-- The planner's nested loops enumerate the list product of the two
coordinate ranges. -/
theorem tileGridPlan_eq_product (w h tw th : Nat) :
    tileGridPlan w h tw th =
      (List.range (ceilDiv (w : Int) (tw : Int)).toNat) ×ˢ
        (List.range (ceilDiv (h : Int) (th : Int)).toNat) := rfl

/-- Claim C1: for every target image size and every (positive) tile size,
the planning loop of `_generate_tile_list` returns exactly
ceil(width/tileWidth) * ceil(height/tileHeight) coordinates, computed by
integer ceiling division, with no duplicate pair, covering exactly
[0, cols) x [0, rows); and `_generate_tile_list` itself emits exactly
these coordinates (at tile size 512 by 512). -/
theorem C1_tile_grid (w h tw th : Nat) (htw : 0 < tw) (hth : 0 < th) :
    (ceilDiv (w : Int) (tw : Int)).toNat = (w + tw - 1) / tw ∧
    (tileGridPlan w h tw th).length =
      ((w + tw - 1) / tw) * ((h + th - 1) / th) ∧
    (tileGridPlan w h tw th).Nodup ∧
    (∀ x y : Nat, (x, y) ∈ tileGridPlan w h tw th ↔
      x < (w + tw - 1) / tw ∧ y < (h + th - 1) / th) ∧
    (∀ (panoid : String) (zoom : Nat) (img_size : Nat × Nat),
      (generate_tile_list panoid zoom img_size).map (fun t => (t.x, t.y)) =
        tileGridPlan img_size.1 img_size.2 512 512) := by
  have hcols : (ceilDiv (w : Int) (tw : Int)).toNat = (w + tw - 1) / tw :=
    ceilDiv_toNat w tw htw
  have hrows : (ceilDiv (h : Int) (th : Int)).toNat = (h + th - 1) / th :=
    ceilDiv_toNat h th hth
  refine ⟨hcols, ?_, ?_, ?_, ?_⟩
  · rw [tileGridPlan_eq_product, List.length_product, List.length_range,
      List.length_range, hcols, hrows]
  · rw [tileGridPlan_eq_product]
    exact List.Nodup.product (List.nodup_range _) (List.nodup_range _)
  · intro x y
    rw [tileGridPlan_eq_product, ← hcols, ← hrows]
    exact List.mem_product.trans (by rw [List.mem_range, List.mem_range])
  · intro panoid zoom img_size
    simp [generate_tile_list, List.map_map, Function.comp_def]

theorem C1_tile_grid_witness :
    0 < 512 ∧
    (tileGridPlan 1024 700 512 512).length =
      ((1024 + 512 - 1) / 512) * ((700 + 512 - 1) / 512) :=
  ⟨by decide, (C1_tile_grid 1024 700 512 512 (by decide) (by decide)).2.1⟩

/-- The tier selected by `_get_panorama_with_sizes` is the clamped zoom. -/
theorem get_panorama_with_sizes_zoom (pano : StreetViewPanorama) (zoom : Int) :
    (get_panorama_with_sizes pano zoom).zoom =
      (max 0 (min zoom ((pano.image_sizes.length : Int) - 1))).toNat := rfl

/-- Claim C4, amended: with a non-empty size list the resolver clamps the
requested zoom into [0, len-1] and uses image_sizes[tier] as the target
size; any request at or above len-1 saturates to tier len-1 (so zoom 100
matches zoom len-1 exactly when len-1 is at most 100), and zoom -5
resolves tier 0.  The original claim's "zoom 100 equals zoom len-1" fails
for size lists with more than 101 entries. -/
theorem C4_zoom_clamp (pano : StreetViewPanorama) (zoom : Int)
    (hne : pano.image_sizes ≠ []) :
    (get_panorama_with_sizes pano zoom).zoom ≤ pano.image_sizes.length - 1 ∧
    (zoom ≤ 0 → (get_panorama_with_sizes pano zoom).zoom = 0) ∧
    ((pano.image_sizes.length : Int) - 1 ≤ zoom →
      (get_panorama_with_sizes pano zoom).zoom = pano.image_sizes.length - 1) ∧
    ((pano.image_sizes.length : Int) - 1 ≤ 100 →
      (get_panorama_with_sizes pano 100).zoom =
        (get_panorama_with_sizes pano
          ((pano.image_sizes.length : Int) - 1)).zoom) ∧
    (get_panorama_with_sizes pano zoom).img_size =
      ((pano.image_sizes.getD (get_panorama_with_sizes pano zoom).zoom
          ⟨0, 0⟩).x,
       (pano.image_sizes.getD (get_panorama_with_sizes pano zoom).zoom
          ⟨0, 0⟩).y) ∧
    (get_panorama_with_sizes pano (-5)).zoom = 0 := by
  have hn : 1 ≤ pano.image_sizes.length := List.length_pos.mpr hne
  refine ⟨?_, ?_, ?_, ?_, rfl, ?_⟩ <;>
    simp only [get_panorama_with_sizes_zoom] <;> omega

theorem C4_zoom_clamp_witness :
    ([⟨416, 208⟩, ⟨832, 416⟩] : List ImgSize) ≠ [] ∧
    (get_panorama_with_sizes ⟨"abc", [⟨416, 208⟩, ⟨832, 416⟩], (512, 512)⟩
        100).zoom =
      (get_panorama_with_sizes ⟨"abc", [⟨416, 208⟩, ⟨832, 416⟩], (512, 512)⟩
        (((StreetViewPanorama.mk "abc" [⟨416, 208⟩, ⟨832, 416⟩]
            (512, 512)).image_sizes.length : Int) - 1)).zoom ∧
    (get_panorama_with_sizes ⟨"abc", [⟨416, 208⟩, ⟨832, 416⟩], (512, 512)⟩
        (-5)).zoom = 0 :=
  ⟨by decide,
   (C4_zoom_clamp ⟨"abc", [⟨416, 208⟩, ⟨832, 416⟩], (512, 512)⟩ 100
      (by decide)).2.2.2.1 (by decide),
   (C4_zoom_clamp ⟨"abc", [⟨416, 208⟩, ⟨832, 416⟩], (512, 512)⟩ 100
      (by decide)).2.2.2.2.2⟩

/-- A panorama with 102 resolution tiers. -/
def pano102 : StreetViewPanorama :=
  ⟨"F:abc", List.replicate 102 ⟨416, 208⟩, (512, 512)⟩

/-- Claim C4, counterexample: with a 102-entry size list, requested zoom
100 resolves tier 100 while requested zoom len-1 = 101 resolves tier 101,
so the two do not resolve the same tier. -/
theorem C4_counterexample :
    pano102.image_sizes ≠ [] ∧
    (get_panorama_with_sizes pano102 100).zoom = 100 ∧
    (get_panorama_with_sizes pano102
      ((pano102.image_sizes.length : Int) - 1)).zoom = 101 := by
  refine ⟨by decide, by decide, by decide⟩

/-- Without a session, each loop iteration whose guard passes raises
`NameError` at the fetch expression; if no guard passes the loop falls
through to `return None`. -/
theorem probeLoop_no_session (panoid : String) (zoom : Int) (ts : List Nat) :
    probeLoop panoid zoom none ts =
      (if ∃ t ∈ ts, (t : Int) ≤ zoom then Except.error PyError.nameError
       else Except.ok none) := by
  induction ts with
  | nil => simp [probeLoop]
  | cons t ts ih =>
    simp only [probeLoop, fetchStatus]
    by_cases hle : (t : Int) ≤ zoom
    · simp [hle]
    · simp only [if_neg hle, ih]
      rcases em (∃ x ∈ ts, (x : Int) ≤ zoom) with h | h
      · rw [if_pos h, if_pos ⟨h.choose, List.mem_cons_of_mem _ h.choose_spec.1,
          h.choose_spec.2⟩]
      · rw [if_neg h, if_neg ?_]
        rintro ⟨x, hx, hxle⟩
        rcases List.mem_cons.mp hx with rfl | hx
        · exact hle hxle
        · exact h ⟨x, hx, hxle⟩

/-- Claim C10: with `session = None`, the probing path raises `NameError`
at the first probe it attempts (any requested zoom at least 0), and when
the requested zoom is negative it attempts no probe and returns `None`;
in neither case does a sessionless caller complete a probe-based
resolution. -/
theorem C10_probe_without_session (pano : StreetViewPanorama) (zoom : Int) :
    get_panorama_without_sizes pano zoom none =
      (if 0 ≤ zoom then Except.error PyError.nameError else Except.ok none) := by
  rw [get_panorama_without_sizes, probeLoop_no_session]
  have hiff : (∃ t ∈ ([5, 4, 3, 2, 1, 0] : List Nat), (t : Int) ≤ zoom) ↔
      0 ≤ zoom := by
    constructor
    · rintro ⟨t, _, hle⟩
      have := Int.natCast_nonneg t
      omega
    · intro h0
      exact ⟨0, by decide, by simpa using h0⟩
  rw [if_congr hiff rfl rfl]

/-- With a session, the loop returns `None` exactly when every candidate
that passes the guard probes to a status other than 200. -/
theorem probeLoop_ok_none_iff (panoid : String) (zoom : Int)
    (s : String → Nat) (ts : List Nat) :
    probeLoop panoid zoom (some s) ts = Except.ok none ↔
      ∀ t ∈ ts, (t : Int) ≤ zoom →
        s (generate_tile_url panoid t 0 0) ≠ 200 := by
  induction ts with
  | nil => simp [probeLoop]
  | cons t ts ih =>
    simp only [probeLoop, fetchStatus]
    by_cases hle : (t : Int) ≤ zoom
    · by_cases h200 : s (generate_tile_url panoid t 0 0) = 200
      · simp [hle, h200, List.forall_mem_cons]
      · simp [hle, h200, ih, List.forall_mem_cons]
    · simp [hle, ih, List.forall_mem_cons]

/-- With a session, a returned resolution comes from the first candidate
(in list order) that passes the guard and probes to 200, and carries that
tier's computed image size, the fixed 512 by 512 tile size, and that
tier's tile list. -/
theorem probeLoop_ok_some (panoid : String) (zoom : Int) (s : String → Nat)
    (ts : List Nat) (hsort : ts.Pairwise (fun a b => b < a)) (res : Resolution)
    (h : probeLoop panoid zoom (some s) ts = Except.ok (some res)) :
    res.zoom ∈ ts ∧ (res.zoom : Int) ≤ zoom ∧
    s (generate_tile_url panoid res.zoom 0 0) = 200 ∧
    res.img_size = calculate_image_size res.zoom ∧
    res.tile_size = (512, 512) ∧
    res.tiles = generate_tile_list panoid res.zoom (calculate_image_size res.zoom) ∧
    (∀ t ∈ ts, res.zoom < t → (t : Int) ≤ zoom →
      s (generate_tile_url panoid t 0 0) ≠ 200) := by
  induction ts with
  | nil => simp [probeLoop] at h
  | cons t ts ih =>
    obtain ⟨hhead, htail⟩ := List.pairwise_cons.mp hsort
    simp only [probeLoop, fetchStatus] at h
    by_cases hle : (t : Int) ≤ zoom
    · rw [if_pos hle] at h
      by_cases h200 : s (generate_tile_url panoid t 0 0) = 200
      · rw [if_pos h200] at h
        have hres := (Option.some.injEq _ _).mp (Except.ok.inj h)
        subst hres
        dsimp only
        refine ⟨List.mem_cons_self _ _, hle, h200, rfl, rfl, rfl, ?_⟩
        intro x hx hgt _
        rcases List.mem_cons.mp hx with rfl | hx
        · omega
        · exact absurd (hhead x hx) (by omega)
      · rw [if_neg h200] at h
        obtain ⟨hmem, hlez, h200r, him, hts, htl, hfirst⟩ := ih htail h
        refine ⟨List.mem_cons_of_mem _ hmem, hlez, h200r, him, hts, htl, ?_⟩
        intro x hx hgt hxle
        rcases List.mem_cons.mp hx with rfl | hx
        · exact h200
        · exact hfirst x hx hgt hxle
    · rw [if_neg hle] at h
      obtain ⟨hmem, hlez, h200r, him, hts, htl, hfirst⟩ := ih htail h
      refine ⟨List.mem_cons_of_mem _ hmem, hlez, h200r, him, hts, htl, ?_⟩
      intro x hx hgt hxle
      rcases List.mem_cons.mp hx with rfl | hx
      · exact absurd hxle hle
      · exact hfirst x hx hgt hxle

/-- Claim C5, amended: with an empty size list the resolver probes tiers
from min(requestedZoom, 5) downward to 0 — not from the requested zoom
itself, which the loop caps at 5 — selects the first (highest) tier in
that range whose (0, 0)-tile probe returns status 200, and returns no
image exactly when no tier in that range confirms. -/
theorem C5_probe_resolution (pano : StreetViewPanorama) (zoom : Int)
    (s : String → Nat) :
    (get_panorama_without_sizes pano zoom (some s) = Except.ok none ↔
      ∀ t : Nat, t ≤ 5 → (t : Int) ≤ zoom →
        s (generate_tile_url pano.id t 0 0) ≠ 200) ∧
    (∀ res : Resolution,
      get_panorama_without_sizes pano zoom (some s) = Except.ok (some res) →
        res.zoom ≤ 5 ∧ (res.zoom : Int) ≤ zoom ∧
        s (generate_tile_url pano.id res.zoom 0 0) = 200 ∧
        res.img_size = calculate_image_size res.zoom ∧
        res.tile_size = (512, 512) ∧
        res.tiles =
          generate_tile_list pano.id res.zoom (calculate_image_size res.zoom) ∧
        (∀ t : Nat, res.zoom < t → t ≤ 5 → (t : Int) ≤ zoom →
          s (generate_tile_url pano.id t 0 0) ≠ 200)) := by
  have hmem : ∀ t : Nat, t ∈ ([5, 4, 3, 2, 1, 0] : List Nat) ↔ t ≤ 5 := by
    intro t
    simp only [List.mem_cons, List.not_mem_nil, or_false]
    omega
  constructor
  · rw [get_panorama_without_sizes, probeLoop_ok_none_iff]
    constructor
    · intro H t ht5 hle
      exact H t ((hmem t).mpr ht5) hle
    · intro H t htm hle
      exact H t ((hmem t).mp htm) hle
  · intro res h
    obtain ⟨hm, hlez, h200, him, hts, htl, hfirst⟩ :=
      probeLoop_ok_some pano.id zoom s [5, 4, 3, 2, 1, 0] (by decide) res h
    refine ⟨(hmem _).mp hm, hlez, h200, him, hts, htl, ?_⟩
    intro t hgt ht5 hle
    exact hfirst t ((hmem t).mpr ht5) hgt hle

/-- An oracle that confirms only the tier-6 probe URL of panorama "abc". -/
def sTier6 : String → Nat :=
  fun url => if url = generate_tile_url "abc" 6 0 0 then 200 else 404

/-- A panorama whose `image_sizes` is falsy, driving the probing path. -/
def pano_empty : StreetViewPanorama := ⟨"abc", [], (512, 512)⟩

/-- Claim C5, counterexample: with requested zoom 6, tier 6 lies in
[0, requestedZoom] and its probe confirms (status 200), yet the code
returns no image, because the loop never probes above tier 5. -/
theorem C5_counterexample :
    ((6 : Nat) : Int) ≤ (6 : Int) ∧
    sTier6 (generate_tile_url "abc" 6 0 0) = 200 ∧
    get_panorama_without_sizes pano_empty 6 (some sTier6) = Except.ok none :=
  ⟨by decide, by decide, rfl⟩

theorem C5_probe_resolution_witness :
    get_panorama_without_sizes pano_empty 5 (some sTier6) = Except.ok none :=
  (C5_probe_resolution pano_empty 5 sTier6).1.mpr (by decide)

/-- Claim C6, amended: a requested zoom below 0 resolves tier 0 when the
size list is non-empty; but when the size list is empty the probing loop's
guard `test_zoom <= zoom` rejects every candidate, so the code probes
nothing and returns `None` instead of treating the request as zoom 0. -/
theorem C6_negative_zoom (pano : StreetViewPanorama) (zoom : Int)
    (session : Option (String → Nat)) (hz : zoom < 0) :
    (pano.image_sizes ≠ [] → (get_panorama_with_sizes pano zoom).zoom = 0) ∧
    get_panorama_without_sizes pano zoom session = Except.ok none := by
  constructor
  · intro hne
    have hn : 1 ≤ pano.image_sizes.length := List.length_pos.mpr hne
    rw [get_panorama_with_sizes_zoom]
    omega
  · rw [get_panorama_without_sizes]
    have hall : ∀ ts : List Nat, probeLoop pano.id zoom session ts =
        Except.ok none := by
      intro ts
      induction ts with
      | nil => rfl
      | cons t ts ih =>
        have hle : ¬((t : Int) ≤ zoom) := by
          have := Int.natCast_nonneg t
          omega
        simp only [probeLoop, if_neg hle]
        exact ih
    exact hall _

/-- A panorama with one resolution tier. -/
def pano_one : StreetViewPanorama := ⟨"F:xyz", [⟨416, 208⟩], (512, 512)⟩

theorem C6_negative_zoom_witness :
    (-5 : Int) < 0 ∧
    (get_panorama_with_sizes pano_one (-5)).zoom = 0 ∧
    get_panorama_without_sizes pano_one (-5) none = Except.ok none :=
  ⟨by decide,
   (C6_negative_zoom pano_one (-5) none (by decide)).1 (by decide),
   (C6_negative_zoom pano_one (-5) none (by decide)).2⟩

/-- An oracle that confirms every probe. -/
def sAll200 : String → Nat := fun _ => 200

/-- Claim C6, counterexample: with an empty size list, requested zoom -1
and an oracle that confirms every tier (including tier 0), `get_panorama`
returns no image without probing anything, while the claim requires it to
probe tier 0 and succeed. -/
theorem C6_counterexample :
    sAll200 (generate_tile_url "abc" 0 0 0) = 200 ∧
    get_panorama pano_empty (-1) (some sAll200) = Except.ok none :=
  ⟨rfl, rfl⟩

/-- Claim C9: for every panorama whose `image_sizes` is falsy (None or
empty), `get_panorama_async` raises `ValueError` from
`_validate_get_panorama_params` instead of probing, while the blocking
`get_panorama` takes the probing fallback path. -/
theorem C9_async_requires_sizes (pano : StreetViewPanorama) (zoom : Int)
    (session : Option (String → Nat)) (h : pano.image_sizes = []) :
    get_panorama_async pano zoom = Except.error PyError.valueError ∧
    get_panorama pano zoom session =
      get_panorama_without_sizes pano zoom session := by
  constructor
  · simp [get_panorama_async, validate_get_panorama_params, h]
  · simp [get_panorama, h]

theorem C9_async_requires_sizes_witness :
    pano_empty.image_sizes = [] ∧
    get_panorama_async pano_empty 5 = Except.error PyError.valueError ∧
    get_panorama pano_empty 5 none =
      get_panorama_without_sizes pano_empty 5 none :=
  ⟨rfl, (C9_async_requires_sizes pano_empty 5 none rfl).1,
   (C9_async_requires_sizes pano_empty 5 none rfl).2⟩

/-- A panorama with a size list, on which the blocking path succeeds. -/
def pano_basic : StreetViewPanorama := ⟨"abc", [⟨416, 208⟩], (512, 512)⟩

/-- Claim C8: the blocking and non-blocking entry points do not share the
planning logic — on the very panorama where the blocking path resolves
tier 0 and plans its one-tile list, the non-blocking path raises
`TypeError`, because the source calls `_generate_tile_list(pano, zoom)`
with two positional arguments for a three-parameter function (passing the
panorama object where the identifier string is expected). -/
theorem C8_async_type_error :
    get_panorama_async pano_basic 0 = Except.error PyError.typeError ∧
    get_panorama pano_basic 0 none =
      Except.ok (some
        { zoom := 0
          img_size := (416, 208)
          tile_size := (512, 512)
          tiles := [⟨0, 0, "https://lh3.ggpht.com/p/abc=x0-y0-z0"⟩] }) :=
  ⟨rfl, rfl⟩

/-- The stitched raster image: exact target dimensions and a pixel lookup
(pixel value 0 is the blank background of a freshly created canvas). -/
structure AsmImage where
  width : Nat
  height : Nat
  pix : Nat → Nat → Nat

/-- Modelled from the spec: `get_equirectangular_panorama` /
`PanoramaAssembler.assemble` (in `streetlevel.util`, which is not among
this repository's source files).  Per the specification: fetch every
planned tile (here `results c` is the decoded sub-image of tile `c`, or
`none` if its fetch or decode failed); paint each successful tile into
disjoint regions at offset (col * tileWidth, row * tileHeight), clipped to
canvas bounds, leaving failed tiles' regions blank; return the failure
value when zero tiles were painted, else the canvas at the exact target
dimensions. -/
def assemble (w h tw th : Nat) (coords : List (Nat × Nat))
    (results : Nat × Nat → Option (Nat → Nat → Nat)) : Option AsmImage :=
  if coords.all (fun c => (results c).isNone) then none
  else some
    { width := w
      height := h
      pix := fun px py =>
        if px < w ∧ py < h ∧ (px / tw, py / th) ∈ coords then
          match results (px / tw, py / th) with
          | some timg => timg (px % tw) (py % th)
          | none => 0
        else 0 }

/-- Claim C3: assembly fails as a whole exactly when every planned tile
failed; with at least one successful tile it returns an image of the full
target dimensions in which every failed tile's region is left blank. -/
theorem C3_assembly_best_effort (w h tw th : Nat)
    (coords : List (Nat × Nat))
    (results : Nat × Nat → Option (Nat → Nat → Nat)) :
    (assemble w h tw th coords results = none ↔
      coords.all (fun c => (results c).isNone) = true) ∧
    (Option.elim (assemble w h tw th coords results) True
      (fun img => img.width = w ∧ img.height = h)) ∧
    (∀ c ∈ coords, results c = none → ∀ px py : Nat,
      px / tw = c.1 → py / th = c.2 →
      Option.elim (assemble w h tw th coords results) True
        (fun img => img.pix px py = 0)) := by
  by_cases hall : coords.all (fun c => (results c).isNone) = true
  · refine ⟨by simp [assemble, hall], by simp [assemble, hall], ?_⟩
    intro c hc hnone px py hx hy
    simp [assemble, hall]
  · refine ⟨by simp [assemble, hall], by simp [assemble, hall], ?_⟩
    intro c hc hnone px py hx hy
    simp only [assemble, if_neg hall, Option.elim]
    have hcc : (px / tw, py / th) = c := by rw [hx, hy]
    by_cases hcond : px < w ∧ py < h ∧ (px / tw, py / th) ∈ coords
    · rw [if_pos hcond, hcc, hnone]
    · rw [if_neg hcond]

/-- The planned coordinates of a 2 by 2 grid. -/
def coordsC3 : List (Nat × Nat) := [(0, 0), (0, 1), (1, 0), (1, 1)]

/-- Fetch results in which only tile (1, 1) failed; the other three
decode to a sub-image of constant pixel value 7. -/
def resultsC3 : Nat × Nat → Option (Nat → Nat → Nat) :=
  fun c => if c = (1, 1) then none else some (fun _ _ => 7)

theorem C3_assembly_best_effort_witness :
    ((1, 1) ∈ coordsC3) ∧ resultsC3 (1, 1) = none ∧
    (600 / 512 : Nat) = (1, 1).1 ∧ (700 / 512 : Nat) = (1, 1).2 ∧
    Option.elim (assemble 1024 1024 512 512 coordsC3 resultsC3) True
      (fun img => img.pix 600 700 = 0) ∧
    (assemble 1024 1024 512 512 coordsC3 resultsC3).isSome = true :=
  ⟨by decide, rfl, by decide, by decide,
   (C3_assembly_best_effort 1024 1024 512 512 coordsC3 resultsC3).2.2
     (1, 1) (by decide) rfl 600 700 (by decide) (by decide), rfl⟩
